import Mathlib

/-!
Verification of the landlord-ai WhatsApp assistant.

This file is a shallow embedding, in Lean 4, of the inbound-message pipeline of
the landlord-ai server and of its password-reset route, translated directly from
the JavaScript sources:

* `server.js` (first variant, the "DEBUGGED VERSION" webhook): phone-variation
  tenant lookup, conversation history, bilingual keyword fallback classifier,
  message persistence, TwiML reply, and the 10-second delayed follow-up timer.
* `part_001`: the variant whose escalation is guarded by
  `needsAttention && tenant.properties?.landlord_phone` and whose escalation
  send is not wrapped in its own try/catch.
* `part_002`: the variant with a plain single phone lookup, a fallback-less
  `generateAIResponse`, and a `notifyLandlord` that catches its own send errors.
* `part_000`: the `generateAIResponse` that coerces `needsAttention` with
  `response.needsAttention === true`.
* `routes/password-reset.js`: token verification and consumption.

JavaScript runtime values that flow through the handlers (parsed LLM JSON
fields, form fields) are modelled by `JVal`, with JS truthiness and template
rendering made explicit.  External effects (database lookups, the generative
call, outbound sends) are modelled by explicit world records whose fields give
the outcome of each call; a `none`/failure outcome stands for the call throwing
or returning an error, exactly where the JavaScript could observe that.
Each `res.type('text/xml').send(...)` of the source corresponds to one element
of the `replies` list of the handler output.
-/

/-- A JavaScript runtime value, abstracted to what the handlers observe:
booleans, numbers, strings, `null`, `undefined`, and any other value
(`jother`), kept abstract up to its truthiness and its string rendering. -/
inductive JVal where
  | jbool (b : Bool)
  | jnum (n : Int)
  | jstr (s : String)
  | jnull
  | jundef
  | jother (truthy : Bool) (render : String)
deriving DecidableEq

/-- JavaScript truthiness of a `JVal`. -/
def truthyJ : JVal → Bool
  | .jbool b => b
  | .jnum n => n != 0
  | .jstr s => s != ""
  | .jnull => false
  | .jundef => false
  | .jother t _ => t

/-- JavaScript template-literal rendering of a `JVal` (`${v}`). -/
def renderJ : JVal → String
  | .jbool true => "true"
  | .jbool false => "false"
  | .jnum n => toString n
  | .jstr s => s
  | .jnull => "null"
  | .jundef => "undefined"
  | .jother _ r => r

/-- JavaScript strict equality to `true` (`v === true`). -/
def isTrueJ : JVal → Bool
  | .jbool true => true
  | _ => false

/-- Truthiness of an optional value (an absent field is `undefined`, falsy). -/
def truthyO : Option JVal → Bool
  | none => false
  | some v => truthyJ v

/-- The JS value held by an optional request field (`undefined` when absent). -/
def bodyJ : Option JVal → JVal
  | none => .jundef
  | some v => v

/-! ### String operations used by the JavaScript source -/

/-- Replace the first occurrence of `pat` by `rep` in a character list
(`String.prototype.replace` with a string pattern replaces only the first
occurrence, anywhere in the string). -/
def replaceFirstCh (pat rep : List Char) : List Char → List Char
  | [] => if pat.isEmpty then rep else []
  | c :: rest =>
    if pat.isPrefixOf (c :: rest) then rep ++ (c :: rest).drop pat.length
    else c :: replaceFirstCh pat rep rest

/-- `s.replace(pat, rep)` with a string pattern: first occurrence only. -/
def replaceFirst (s pat rep : String) : String :=
  String.mk (replaceFirstCh pat.data rep.data s.data)

/-- The regex replacement `s.replace(/^\+?52/, '')`: strip an optional leading
`+` followed by `52`, at the start of the string only. -/
def stripCC52 (s : String) : String :=
  match s.data with
  | '+' :: '5' :: '2' :: r => String.mk r
  | '5' :: '2' :: r => String.mk r
  | _ => s

/-- The regex replacement `s.replace(/\D/g, '')`: keep only decimal digits. -/
def digitsOnly (s : String) : String :=
  String.mk (s.data.filter Char.isDigit)

/-- Substring occurrence on character lists (for `String.prototype.includes`). -/
def containsSubCh (sub : List Char) : List Char → Bool
  | [] => sub.isEmpty
  | c :: rest => sub.isPrefixOf (c :: rest) || containsSubCh sub rest

/-- `s.includes(sub)`. -/
def jsIncludes (s sub : String) : Bool := containsSubCh sub.data s.data

/-- `s.toLowerCase()` (ASCII case folding; the keyword sets of the source are
already lowercase, and accented characters are left unchanged). -/
def jsToLower (s : String) : String := String.mk (s.data.map Char.toLower)

/-- `x || d` for an optional numeric field interpolated into a template:
`null`/`undefined`/`0` are falsy and give the default string `d`. -/
def optNatOr (d : String) : Option Nat → String
  | some n => if n = 0 then d else toString n
  | none => d

/-- `x || d` for an optional string field: `null`/`undefined`/`""` give `d`. -/
def optStrOr (d : String) : Option String → String
  | some s => if s = "" then d else s
  | none => d

/-- Template rendering of an optional string field without `||` default
(an absent field renders as `undefined`). -/
def optStrRender : Option String → String
  | some s => s
  | none => "undefined"

/-! ### Data model -/

/-- A `properties` row as joined by `select('*, properties (*)')`. -/
structure Property where
  address : Option String
  monthly_rent : Option Nat
  rent_due_day : Option Nat
  landlord_name : Option String
  landlord_phone : Option String
  special_instructions : Option String
deriving DecidableEq

/-- A `tenants` row joined with its property (`properties` is `null` when the
tenant has no property row). -/
structure Tenant where
  id : Nat
  name : String
  phone : String
  properties : Option Property
deriving DecidableEq

/-- A row of the recent-conversation query
`select('direction, message_body, ai_response, created_at')`. -/
structure HistMsg where
  direction : String
  message_body : String
  ai_response : Option String
deriving DecidableEq

/-- A row passed to `supabase.from('messages').insert(...)`. -/
structure MessageRow where
  tenant_id : Nat
  direction : String
  message_body : JVal
  category : JVal
  ai_response : JVal
  needs_landlord_attention : JVal
deriving DecidableEq

/-- One `twilioClient.messages.create({from, to, body})` call (the configured
sending identity is fixed, so only destination and body are recorded). -/
structure Outbound where
  dest : String
  body : String
deriving DecidableEq

/-- Observable effects of one webhook invocation: the synchronous reply
payloads sent with `res.type('text/xml').send(...)`, the message-row inserts
issued, the outbound sends attempted, and whether a delayed follow-up timer
was scheduled. -/
structure HandlerOut where
  replies : List JVal
  inserts : List MessageRow
  sends : List Outbound
  timerScheduled : Bool
deriving DecidableEq

/-- Build a handler output with exactly one reply payload. -/
def mkOut (r : JVal) (ins : List MessageRow) (snds : List Outbound)
    (tmr : Bool) : HandlerOut :=
  { replies := [r], inserts := ins, sends := snds, timerScheduled := tmr }

/-- The inbound webhook request: `req.body.Body` and `req.body.From`. -/
structure Req where
  bodyF : Option JVal
  fromF : Option JVal
deriving DecidableEq

/-- The JSON object parsed from the generative service completion text. -/
structure ParsedAI where
  pmessage : JVal
  pcategory : JVal
  pneedsAttention : JVal
deriving DecidableEq

/-- The `{aiReply, category, needsAttention}` triple a handler ends up with. -/
structure GenResult where
  reply : JVal
  category : JVal
  needsAttention : JVal
deriving DecidableEq

/-! ### Phone resolver -/

/-- `supabase.from('tenants').select('*, properties (*)').eq('phone', p)
.single()`: `data` is non-null exactly when the filter matches exactly one
row. -/
def singleLookup (db : List Tenant) (p : String) : Option Tenant :=
  match db.filter (fun t => t.phone == p) with
  | [t] => some t
  | _ => none

/-- The `for (const p of phoneVariations) { ...; if (data) { tenant = data;
break; } }` loop: try the candidates in order, stop at the first hit. -/
def resolveLoop (db : List Tenant) : List String → Option Tenant
  | [] => none
  | p :: rest =>
    match singleLookup db p with
    | some t => some t
    | none => resolveLoop db rest

/-- The five-candidate list of the main `server.js` variant. -/
def phoneVariations (phone : String) : List String :=
  [phone,
   replaceFirst phone "+52" "",
   "+52" ++ stripCC52 phone,
   digitsOnly phone,
   "+" ++ digitsOnly phone]

/-- The phone resolver of the main `server.js` variant. -/
def findTenant (db : List Tenant) (phone : String) : Option Tenant :=
  resolveLoop db (phoneVariations phone)

/-- The three-candidate list of the `part_001` variant. -/
def phoneVariations3 (phone : String) : List String :=
  [phone,
   replaceFirst phone "+52" "",
   "+52" ++ stripCC52 phone]

/-- The phone resolver of the `part_001` variant. -/
def findTenant3 (db : List Tenant) (phone : String) : Option Tenant :=
  resolveLoop db (phoneVariations3 phone)

/-! ### Language detection (main `server.js` variant) -/

/-- The `spanishIndicators` word list. -/
def spanishIndicators : List String :=
  ["hola", "gracias", "por favor", "sí", "no", "qué", "cómo", "dónde",
   "cuándo", "está", "hay", "tengo", "puedo", "necesito", "el", "la",
   "los", "las", "un", "una"]

/-- The `englishIndicators` word list. -/
def englishIndicators : List String :=
  ["hello", "hi", "thanks", "please", "yes", "what", "how", "where", "when",
   "there", "have", "can", "need", "the", "a", "an", "is", "are"]

/-- Count of indicator words contained in the lowercased message. -/
def scoreOf (mc : String) (ws : List String) : Nat :=
  (ws.filter (fun word => jsIncludes mc word)).length

/-- `spanishScore >= englishScore` (default to Spanish when unclear). -/
def isSpanishMsg (mc : String) : Bool :=
  scoreOf mc englishIndicators ≤ scoreOf mc spanishIndicators

/-! ### Keyword fallback classifier (main `server.js` variant) -/

/-- `tenant.properties?.monthly_rent || '30,000'` rendered into a template. -/
def rentEs (t : Tenant) : String :=
  optNatOr "30,000" (t.properties.bind (·.monthly_rent))

/-- `tenant.properties?.rent_due_day || '1'` rendered into a template. -/
def dueEs (t : Tenant) : String :=
  optNatOr "1" (t.properties.bind (·.rent_due_day))

/-- The Spanish fallback branch of the main variant's catch handler. -/
def fallbackEs (lower : String) (t : Tenant) (isFollowUp : Bool)
    (recentLen : Nat) : GenResult :=
  if jsIncludes lower "pago" || jsIncludes lower "pagar" ||
     jsIncludes lower "renta" || jsIncludes lower "cuanto" ||
     jsIncludes lower "vence" then
    ⟨.jstr ("Tu renta es de $" ++ rentEs t ++ " MXN y vence el día " ++
        dueEs t ++ " de cada mes. ¿Te funciona bien ese día?"),
     .jstr "PAGO", .jbool false⟩
  else if jsIncludes lower "fuga" || jsIncludes lower "emergencia" ||
     jsIncludes lower "incendio" || jsIncludes lower "gas" ||
     jsIncludes lower "inundación" then
    ⟨.jstr (if isFollowUp then
        "Perfecto, ya tengo más info. Voy a contactar al técnico apropiado ahora mismo y te confirmo el horario lo antes posible."
      else
        "Ay no, eso suena muy estresante. Me tomo esto en serio y me aseguraré de que alguien vaya lo antes posible. ¿Me puedes contar un poco más sobre qué está pasando?"),
     .jstr "URGENTE", .jbool true⟩
  else if jsIncludes lower "roto" || jsIncludes lower "no funciona" ||
     jsIncludes lower "arreglar" || jsIncludes lower "reparar" ||
     jsIncludes lower "mantenimiento" then
    ⟨.jstr (if isFollowUp then
        "Entiendo. Con esa información voy a programar a alguien para que lo revise. Te confirmo en cuanto tenga el horario."
      else
        "Lamento que no esté funcionando bien - es súper frustrante. Déjame ayudarte a arreglar esto. ¿Me puedes describir qué está pasando?"),
     .jstr "MANTENIMIENTO", .jbool true⟩
  else if jsIncludes lower "gracias" then
    ⟨.jstr "¡De nada! Estoy aquí cuando necesites cualquier cosa.",
     .jstr "CONSULTA", .jbool false⟩
  else if isFollowUp && decide (0 < recentLen) then
    ⟨.jstr "Perfecto, ya tengo esa información. Dame un momento para coordinarlo todo y te confirmo.",
     .jstr "CONSULTA", .jbool true⟩
  else
    ⟨.jstr "¡Hola! Recibí tu mensaje. ¿Me podrías contar un poco más para poder ayudarte?",
     .jstr "CONSULTA", .jbool false⟩

/-- The English fallback branch of the main variant's catch handler. -/
def fallbackEn (lower : String) (t : Tenant) (isFollowUp : Bool)
    (recentLen : Nat) : GenResult :=
  if jsIncludes lower "payment" || jsIncludes lower "pay" ||
     jsIncludes lower "rent" || jsIncludes lower "how much" ||
     jsIncludes lower "due" then
    ⟨.jstr ("Your rent is $" ++ rentEs t ++ " MXN and it\x27s due on day " ++
        dueEs t ++ " of each month. Does that timing work for you?"),
     .jstr "PAYMENT", .jbool false⟩
  else if jsIncludes lower "leak" || jsIncludes lower "emergency" ||
     jsIncludes lower "fire" || jsIncludes lower "flooding" ||
     jsIncludes lower "urgent" then
    ⟨.jstr (if isFollowUp then
        "Perfect, I have more info now. I\x27ll contact the appropriate technician right away and confirm the schedule as soon as possible."
      else
        "Oh no, that sounds really stressful. I\x27m taking this seriously and will make sure someone gets out there as soon as possible. Can you tell me a bit more about what\x27s happening?"),
     .jstr "URGENT", .jbool true⟩
  else if jsIncludes lower "broken" || jsIncludes lower "not working" ||
     jsIncludes lower "fix" || jsIncludes lower "repair" then
    ⟨.jstr (if isFollowUp then
        "Got it. With that information I\x27ll schedule someone to check it out. I\x27ll confirm the time as soon as I have it."
      else
        "I\x27m sorry that\x27s not working properly - that\x27s really frustrating. Let me help you get this fixed. Can you describe what\x27s going on?"),
     .jstr "MAINTENANCE", .jbool true⟩
  else if jsIncludes lower "thank" || jsIncludes lower "thanks" ||
     jsIncludes lower "appreciate" then
    ⟨.jstr "You\x27re so welcome! I\x27m here whenever you need anything.",
     .jstr "INQUIRY", .jbool false⟩
  else if isFollowUp && decide (0 < recentLen) then
    ⟨.jstr "Perfect, I have that information now. Give me a moment to coordinate everything and I\x27ll confirm with you.",
     .jstr "INQUIRY", .jbool true⟩
  else
    ⟨.jstr "Hey! I got your message. Could you tell me a bit more so I can help you out?",
     .jstr "INQUIRY", .jbool false⟩

/-- The whole catch-branch fallback of the main variant: language detection on
the lowercased message, the follow-up heuristic `recentMessages.length > 0 &&
message.length < 30`, then the per-language keyword classifier. -/
def mainFallback (msg : String) (t : Tenant) (recentLen : Nat) : GenResult :=
  let lower := jsToLower msg
  let isFollowUp := decide (0 < recentLen) && decide (msg.length < 30)
  if isSpanishMsg lower then fallbackEs lower t isFollowUp recentLen
  else fallbackEn lower t isFollowUp recentLen

/-- Reply generation of the main variant: on a successful generative call the
parsed fields are taken as-is, except that a non-string `parsed.message` makes
the logging call `aiReply.substring(0, 50)` throw inside the same `try`, so
the catch-branch fallback replaces all three values; any call/parse failure
(`aiOutcome = none`) takes the fallback as well. -/
def mainGenerate (msg : String) (t : Tenant) (recentLen : Nat)
    (ai : Option ParsedAI) : GenResult :=
  match ai with
  | some parsed =>
    match parsed.pmessage with
    | .jstr s => ⟨.jstr s, parsed.pcategory, parsed.pneedsAttention⟩
    | _ => mainFallback msg t recentLen
  | none => mainFallback msg t recentLen

/-! ### Context assembler (main `server.js` variant) -/

/-- One iteration of the history-rendering `forEach` (only incoming rows are
rendered, and `if (msg.ai_response)` is a truthiness test). -/
def histLine (m : HistMsg) : String :=
  if m.direction = "incoming" then
    "Tenant: \"" ++ m.message_body ++ "\"\n" ++
      (match m.ai_response with
       | some r => if r = "" then "" else "You: \"" ++ r ++ "\"\n"
       | none => "")
  else ""

/-- `conversationContext` as built by the main variant (English prompt). -/
def conversationContext (recent : List HistMsg) : String :=
  if 0 < recent.length then
    "\n\nRECENT CONVERSATION HISTORY:\n" ++
      String.join (recent.map histLine) ++
      "\n⚠️ IMPORTANT: This is the previous conversation context. The tenant\x27s current message may be a continuation or follow-up. Respond coherently considering what has already been discussed."
  else ""

/-- The property-information block of the Spanish prompt of the main variant,
together with the rendered conversation transcript: the pure data context fed
to the generative call. -/
def assembleContextEs (t : Tenant) (recent : List HistMsg) : String :=
  "INFORMACIÓN DE LA PROPIEDAD:\nInquilino: " ++ t.name ++
  "\nDirección: " ++ optStrOr "la propiedad" (t.properties.bind (·.address)) ++
  "\nRenta mensual: $" ++ optNatOr "N/A" (t.properties.bind (·.monthly_rent)) ++
  " MXN\nVencimiento de pago: Día " ++
  optNatOr "N/A" (t.properties.bind (·.rent_due_day)) ++
  " de cada mes\nPropietario: " ++
  optStrOr "el propietario" (t.properties.bind (·.landlord_name)) ++
  "\nNotas especiales: " ++
  optStrOr "Ninguna" (t.properties.bind (·.special_instructions)) ++
  conversationContext recent

/-- `conversationHistory?.reverse() || []`: the query returns newest-first
(or null on error), the handler reverses to chronological order. -/
def recentOf : Option (List HistMsg) → List HistMsg
  | some l => l.reverse
  | none => []

/-! ### Delayed follow-up timer (main `server.js` variant) -/

/-- Professional selection inside the timer callback: (professional,
professionalName, timeSlot). -/
def timerProfessional (lower : String) : String × String × String :=
  if jsIncludes lower "fuga" || jsIncludes lower "agua" ||
     jsIncludes lower "tubería" || jsIncludes lower "baño" ||
     jsIncludes lower "leak" || jsIncludes lower "water" ||
     jsIncludes lower "pipe" || jsIncludes lower "bathroom" then
    ("the plumber", "Rosendo", "10:00 am")
  else if jsIncludes lower "luz" || jsIncludes lower "eléctric" ||
     jsIncludes lower "light" || jsIncludes lower "electric" ||
     jsIncludes lower "power" then
    ("the electrician", "Miguel", "2:00 pm")
  else ("the technician", "Rosendo", "10:00 am")

/-- `followUpMessage`: non-empty only when the category variable is strictly
equal to the string 'URGENT' or 'MAINTENANCE'. -/
def timerFollowUp (msg : String) (cat : JVal) : String :=
  let pro := timerProfessional (jsToLower msg)
  if cat == .jstr "URGENT" || cat == .jstr "MAINTENANCE" then
    "All set, I spoke with " ++ pro.1 ++ ". He\x27s available at " ++
      pro.2.2 ++ " and will come by to check it out. His name is " ++
      pro.2.1 ++
      ". Let me know how it goes, and don\x27t worry, I\x27ll take care of paying him."
  else ""

/-- The body of the timer callback: if `followUpMessage` is non-empty, attempt
the outbound send, and insert the outgoing row only when the send did not
throw (the callback's own catch swallows the failure). -/
def timerRun (msg p : String) (tid : Nat) (cat : JVal) (sendFails : Bool) :
    List Outbound × List MessageRow :=
  let fu := timerFollowUp msg cat
  if fu = "" then ([], [])
  else if sendFails then ([⟨"whatsapp:" ++ p, fu⟩], [])
  else ([⟨"whatsapp:" ++ p, fu⟩],
        [⟨tid, "outgoing", .jstr fu, cat, .jnull, .jbool false⟩])

/-- The timer is scheduled only under `if (needsAttention)` (truthiness). -/
def timerEffect (msg p : String) (tid : Nat) (g : GenResult)
    (sendFails : Bool) : List Outbound × List MessageRow :=
  if truthyJ g.needsAttention then timerRun msg p tid g.category sendFails
  else ([], [])

/-! ### Main webhook handler (`server.js`, first variant) -/

/-- Outcomes of the external calls made by one invocation of the main
handler: the tenant directory, the history query (`none` = error, data null),
the generative call (`none` = the call or `JSON.parse` threw), whether the
message insert returned an error (logged only), and whether the timer's
outbound send throws. -/
structure WorldM where
  db : List Tenant
  history : Option (List HistMsg)
  aiOutcome : Option ParsedAI
  insertErr : Bool
  timerSendFails : Bool

/-- The resolved-tenant path of the main handler: history fetch, reply
generation, the incoming-row insert (its error is only logged), the single
TwiML reply, and the conditional follow-up timer. -/
def mainResolved (msg p : String) (t : Tenant) (w : WorldM) : HandlerOut :=
  let recentLen := (recentOf w.history).length
  let g := mainGenerate msg t recentLen w.aiOutcome
  let row : MessageRow :=
    ⟨t.id, "incoming", .jstr msg, g.category, g.reply, g.needsAttention⟩
  let eff := timerEffect msg p t.id g w.timerSendFails
  mkOut g.reply (row :: eff.2) eff.1 (truthyJ g.needsAttention)

/-- After validation: resolve the tenant; an unknown sender gets the fixed
"not found" reply; a truthy non-string `Body` reaches
`message.toLowerCase()` and throws, landing in the top-level catch. -/
def mainResolve (bodyF : Option JVal) (p : String) (w : WorldM) : HandlerOut :=
  match findTenant w.db p with
  | none =>
    mkOut (.jstr "Sorry, I can\x27t find your number in our system. Please contact your landlord.")
      [] [] false
  | some t =>
    match bodyF with
    | some (.jstr msg) => mainResolved msg p t w
    | _ =>
      mkOut (.jstr "Sorry, there was an error. Please try again in a moment.")
        [] [] false

/-- The main `server.js` webhook handler.  `From` is stripped of the
`whatsapp:` prefix (a non-string `From` makes `.replace` throw, reaching the
top-level catch); `if (!message || !phone)` short-circuits to the validation
reply; otherwise the resolved pipeline runs.  Every branch produces exactly
one `res.type('text/xml').send(...)`. -/
def mainHandler (req : Req) (w : WorldM) : HandlerOut :=
  match req.fromF with
  | none =>
    mkOut (.jstr "Error: missing message or phone number") [] [] false
  | some (.jstr f) =>
    let p := replaceFirst f "whatsapp:" ""
    if truthyO req.bodyF = false ∨ p = "" then
      mkOut (.jstr "Error: missing message or phone number") [] [] false
    else mainResolve req.bodyF p w
  | some _ =>
    mkOut (.jstr "Sorry, there was an error. Please try again in a moment.")
      [] [] false

/-! ### Webhook handler of the `part_001` variant -/

/-- Outcomes of the external calls of one `part_001` invocation: the tenant
directory, the generative call, and whether the (unguarded) escalation send
throws. -/
structure WorldP1 where
  db : List Tenant
  aiOutcome : Option ParsedAI
  escalationFails : Bool

/-- The keyword fallback of `part_001`. -/
def p1Fallback (msg : String) (t : Tenant) : GenResult :=
  let lower := jsToLower msg
  if jsIncludes lower "pago" || jsIncludes lower "pagar" ||
     jsIncludes lower "renta" || jsIncludes lower "cuanto" then
    ⟨.jstr ("El día " ++ dueEs t ++ "! Son $" ++ rentEs t ++ " MXN."),
     .jstr "PAGO", .jbool false⟩
  else if jsIncludes lower "fuga" || jsIncludes lower "emergencia" ||
     jsIncludes lower "incendio" then
    ⟨.jstr "Ok, ya le avisé! Te contacta en breve.", .jstr "URGENTE",
     .jbool true⟩
  else if jsIncludes lower "mascota" || jsIncludes lower "perro" ||
     jsIncludes lower "gato" then
    ⟨.jstr "Claro! Mascotas pequeñas están bien. Ya está aprobado.",
     .jstr "CONSULTA", .jbool false⟩
  else if jsIncludes lower "reparar" || jsIncludes lower "arreglar" ||
     jsIncludes lower "roto" || jsIncludes lower "no funciona" then
    ⟨.jstr "Ya le avisé al técnico, te contacta hoy o mañana!",
     .jstr "MANTENIMIENTO", .jbool true⟩
  else if jsIncludes lower "fumar" || jsIncludes lower "cigarro" then
    ⟨.jstr "No dentro del depa, pero en balcón o afuera sí!",
     .jstr "CONSULTA", .jbool false⟩
  else if jsIncludes lower "ruido" || jsIncludes lower "fiesta" ||
     jsIncludes lower "música" then
    ⟨.jstr "Todo tranqui hasta las 10pm entre semana, fines 11pm. Avisa a vecinos si hay algo especial!",
     .jstr "CONSULTA", .jbool false⟩
  else
    ⟨.jstr "Todo bien! Cualquier cosa me avisas.", .jstr "CONSULTA",
     .jbool false⟩

/-- Reply generation of `part_001`: the parsed fields are taken as-is on
success (no type checks, no coercion); a failed call takes the fallback. -/
def p1Generate (msg : String) (t : Tenant) (ai : Option ParsedAI) : GenResult :=
  match ai with
  | some parsed => ⟨parsed.pmessage, parsed.pcategory, parsed.pneedsAttention⟩
  | none => p1Fallback msg t

/-- `tenant.properties?.landlord_phone` truthiness. -/
def landlordPhoneTruthy (t : Tenant) : Bool :=
  match t.properties with
  | some pr => match pr.landlord_phone with
    | some s => s != ""
    | none => false
  | none => false

/-- The landlord phone as interpolated into `whatsapp:${...}`. -/
def landlordPhoneStr (t : Tenant) : String :=
  match t.properties with
  | some pr => optStrRender pr.landlord_phone
  | none => "undefined"

/-- `tenant.properties.address` as interpolated in the escalation body. -/
def tenantAddrRender (t : Tenant) : String :=
  match t.properties with
  | some pr => optStrRender pr.address
  | none => "undefined"

/-- The escalation body of `part_001`. -/
def p1EscalBody (t : Tenant) (bodyV : JVal) (replyV : JVal) : String :=
  "🚨 " ++ t.name ++ " - " ++ tenantAddrRender t ++ "\n\n\"" ++
    renderJ bodyV ++ "\"\n\nRespuesta enviada: \"" ++ renderJ replyV ++ "\""

/-- After reply generation in `part_001`: insert the incoming row, then, when
`needsAttention && tenant.properties?.landlord_phone` is truthy, attempt the
escalation send, which is not guarded by its own try/catch and precedes the
TwiML reply — if it throws, the top-level catch replies 'Error.' instead of
the generated reply. -/
def p1AfterGen (bodyV : JVal) (g : GenResult) (t : Tenant) (w : WorldP1) :
    HandlerOut :=
  let row : MessageRow :=
    ⟨t.id, "incoming", bodyV, g.category, g.reply, g.needsAttention⟩
  if truthyJ g.needsAttention && landlordPhoneTruthy t then
    let snd : Outbound :=
      ⟨"whatsapp:" ++ landlordPhoneStr t, p1EscalBody t bodyV g.reply⟩
    if w.escalationFails then mkOut (.jstr "Error.") [row] [snd] false
    else mkOut g.reply [row] [snd] false
  else mkOut g.reply [row] [] false

/-- The `part_001` webhook handler.  Validation replies 'Error'; an unknown
sender (three-candidate resolver) gets the fixed Spanish reply; with a truthy
non-string `Body`, the prompt template still renders, but a failed generative
call would reach `message.toLowerCase()` inside the catch handler and throw
to the top-level catch ('Error.'). -/
def p1Handler (req : Req) (w : WorldP1) : HandlerOut :=
  match req.fromF with
  | none => mkOut (.jstr "Error") [] [] false
  | some (.jstr f) =>
    let p := replaceFirst f "whatsapp:" ""
    if truthyO req.bodyF = false ∨ p = "" then
      mkOut (.jstr "Error") [] [] false
    else
      match findTenant3 w.db p with
      | none => mkOut (.jstr "Lo siento, no reconozco este número.") [] [] false
      | some t =>
        match req.bodyF with
        | some (.jstr msg) => p1AfterGen (.jstr msg) (p1Generate msg t w.aiOutcome) t w
        | _ =>
          match w.aiOutcome with
          | some parsed =>
            p1AfterGen (bodyJ req.bodyF)
              ⟨parsed.pmessage, parsed.pcategory, parsed.pneedsAttention⟩ t w
          | none => mkOut (.jstr "Error.") [] [] false
  | some _ => mkOut (.jstr "Error.") [] [] false

/-! ### Webhook handler of the `part_002` variant -/

/-- Outcomes of the external calls of one `part_002` invocation. -/
structure WorldP2 where
  db : List Tenant
  aiOutcome : Option ParsedAI
  escalationFails : Bool

/-- The `notifyLandlord` body of `part_002`. -/
def p2NotifyBody (t : Tenant) (bodyV : JVal) (pr : Property) : String :=
  "🚨 ATENCIÓN REQUERIDA\n\nInquilino: " ++ t.name ++ "\nPropiedad: " ++
    optStrRender pr.address ++ "\n\nMensaje: \"" ++ renderJ bodyV ++
    "\"\n\nPor favor responde directamente al inquilino: " ++ t.phone

/-- The generic top-level-catch reply of `part_002`. -/
def p2CatchOut : HandlerOut :=
  mkOut (.jstr "Disculpa, hubo un error. Por favor intenta de nuevo.")
    [] [] false

/-- The `part_002` webhook handler: `req.body.From.replace(...)` throws when
`From` is absent or not a string; the tenant lookup is a single exact-match
query; `generateAIResponse` has no fallback, and its prompt dereferences
`property.address`, so a null joined property or a failed generative call
throws to the top-level catch; `notifyLandlord` catches its own send error,
so the escalation outcome never changes the reply. -/
def p2Handler (req : Req) (w : WorldP2) : HandlerOut :=
  match req.fromF with
  | some (.jstr f) =>
    let senderPhone := replaceFirst f "whatsapp:" ""
    match singleLookup w.db senderPhone with
    | none =>
      mkOut (.jstr "Lo siento, no reconozco este número. Por favor contacta a tu casero directamente.")
        [] [] false
    | some t =>
      match t.properties with
      | none => p2CatchOut
      | some pr =>
        match w.aiOutcome with
        | none => p2CatchOut
        | some parsed =>
          let row : MessageRow :=
            ⟨t.id, "incoming", bodyJ req.bodyF, parsed.pcategory,
             parsed.pmessage, parsed.pneedsAttention⟩
          if truthyJ parsed.pneedsAttention then
            mkOut parsed.pmessage [row]
              [⟨"whatsapp:" ++ optStrRender pr.landlord_phone,
                p2NotifyBody t (bodyJ req.bodyF) pr⟩] false
          else mkOut parsed.pmessage [row] [] false
  | _ => p2CatchOut

/-! ### `generateAIResponse` of the `part_000` variant -/

/-- The keyword fallback inside `part_000`'s `generateAIResponse`. -/
def p0Fallback (msg : String) (property : Option Property) : GenResult :=
  let lowerMessage := jsToLower msg
  if jsIncludes lowerMessage "fuga" || jsIncludes lowerMessage "emergencia" then
    ⟨.jstr "🚨 He notificado a tu casero de inmediato sobre esta emergencia.",
     .jstr "URGENTE", .jbool true⟩
  else if jsIncludes lowerMessage "pago" || jsIncludes lowerMessage "renta" then
    ⟨.jstr ("Tu renta es de $" ++ optNatOr "N/A" (property.bind (·.monthly_rent)) ++
        " MXN y vence el día " ++ optNatOr "N/A" (property.bind (·.rent_due_day)) ++ "."),
     .jstr "PAGO", .jbool false⟩
  else
    ⟨.jstr "Recibí tu mensaje. Te respondo en breve.", .jstr "CONSULTA",
     .jbool true⟩

/-- `generateAIResponse` of `part_000`: on success the parsed object is
returned with `response.needsAttention = response.needsAttention === true`
(a strict-boolean coercion); on failure the keyword fallback runs. -/
def p0Generate (msg : String) (property : Option Property)
    (ai : Option ParsedAI) : GenResult :=
  match ai with
  | some parsed =>
    ⟨parsed.pmessage, parsed.pcategory, .jbool (isTrueJ parsed.pneedsAttention)⟩
  | none => p0Fallback msg property

/-! ### Password-reset token flow (`routes/password-reset.js`) -/

/-- A `password_reset_tokens` row.  `expires_at` and the current time are
modelled as natural numbers; the stored ISO-8601 UTC strings compare
lexicographically exactly as the instants they denote. -/
structure ResetToken where
  landlord_id : Nat
  token : String
  expires_at : Nat
  used : Bool
deriving DecidableEq

/-- Outcome of `POST /reset-password`. -/
inductive ResetOutcome where
  | passwordMismatch
  | passwordTooShort
  | invalidToken
  | success (landlord_id : Nat)
deriving DecidableEq

/-- The token verification query
`.eq('token', tok).eq('used', false).gte('expires_at', now).single()`:
`data` is non-null exactly when one row matches. -/
def tokenQuery (tbl : List ResetToken) (tok : String) (now : Nat) :
    Option ResetToken :=
  match tbl.filter
      (fun r => r.token == tok && r.used == false && decide (now ≤ r.expires_at)) with
  | [r] => some r
  | _ => none

/-- `.update({ used: true }).eq('token', token)`: every row holding this
token string is marked used. -/
def consumeToken (tbl : List ResetToken) (tok : String) : List ResetToken :=
  tbl.map (fun r => if r.token == tok then { r with used := true } else r)

/-- `POST /reset-password`: password confirmation and length checks, then
token verification; on success the landlord's password hash is updated (an
external write, not recorded here) and the token is consumed. -/
def resetPassword (tbl : List ResetToken) (tok password confirm : String)
    (now : Nat) : ResetOutcome × List ResetToken :=
  if password ≠ confirm then (.passwordMismatch, tbl)
  else if password.length < 6 then (.passwordTooShort, tbl)
  else
    match tokenQuery tbl tok now with
    | none => (.invalidToken, tbl)
    | some r => (.success r.landlord_id, consumeToken tbl tok)

/-- Whether a reset attempt was accepted. -/
def isSuccess : ResetOutcome → Bool
  | .success _ => true
  | _ => false

/-! ### Concrete data for scenario theorems -/

/-- A property row with the rent and due day of the payment scenario. -/
def demoProperty : Property :=
  { address := some "Av. Reforma 10", monthly_rent := some 15000,
    rent_due_day := some 5, landlord_name := some "Luis",
    landlord_phone := some "+5215599999999", special_instructions := none }

/-- A tenant owning `demoProperty`. -/
def demoTenant : Tenant :=
  { id := 1, name := "Ana", phone := "+5215512345678",
    properties := some demoProperty }

/-- A property row whose landlord phone is absent. -/
def noLandlordProperty : Property :=
  { demoProperty with landlord_phone := none }

/-- A tenant whose property has no landlord phone. -/
def noLandlordTenant : Tenant :=
  { id := 2, name := "Beto", phone := "+5215522222222",
    properties := some noLandlordProperty }

/-- Whether a request field is a string or absent (as in every well-formed
form-encoded webhook delivery). -/
def strField : Option JVal → Bool
  | none => true
  | some (.jstr _) => true
  | some _ => false

/-- The stripped phone (`req.body.From?.replace('whatsapp:', '')`), defined
when `From` is a string. -/
def extractPhone (req : Req) : Option String :=
  match req.fromF with
  | some (.jstr s) => some (replaceFirst s "whatsapp:" "")
  | _ => none

/-- Whether the main handler's validation check `if (!message || !phone)`
passes for a request. -/
def mainValidOf (req : Req) : Bool :=
  truthyO req.bodyF &&
    (match extractPhone req with
     | some p => p != ""
     | none => false)

/-! ## Theorems -/

/-- The first-hit-then-break loop equals `List.findSome?` over the candidates. -/
theorem resolveLoop_eq_findSome (db : List Tenant) (l : List String) :
    resolveLoop db l = l.findSome? (fun p => singleLookup db p) := by
  induction l with
  | nil => rfl
  | cons p rest ih =>
    cases h : singleLookup db p <;>
      simp [resolveLoop, List.findSome?_cons, h, ih]

/-- The loop yields nothing exactly when every candidate lookup fails. -/
theorem resolveLoop_eq_none_iff (db : List Tenant) (l : List String) :
    resolveLoop db l = none ↔ ∀ p ∈ l, singleLookup db p = none := by
  rw [resolveLoop_eq_findSome]
  exact List.findSome?_eq_none_iff

/-- Claim C2: the phone resolver of the main variant tries exactly the ordered
candidate list — the stripped value, the value with the first occurrence of
"+52" removed, the value with "+52" re-added after stripping it from the
front, the digits-only value, and the digits-only value with a leading "+" —
each as an exact-equality single-row lookup, wins on the first candidate that
returns exactly one tenant row joined with its property, and reports an
unknown sender precisely when every candidate fails. -/
theorem phone_resolver_ordered_candidates (db : List Tenant) (phone : String) :
    phoneVariations phone =
      [phone,
       replaceFirst phone "+52" "",
       "+52" ++ stripCC52 phone,
       digitsOnly phone,
       "+" ++ digitsOnly phone] ∧
    findTenant db phone =
      (phoneVariations phone).findSome? (fun p => singleLookup db p) ∧
    (findTenant db phone = none ↔
      ∀ p ∈ phoneVariations phone, singleLookup db p = none) :=
  ⟨rfl, resolveLoop_eq_findSome db _, resolveLoop_eq_none_iff db _⟩

/-- Claim C1: for every inbound request shape and every outcome of the
external calls — missing or non-string fields, unknown senders, generative
failures, persistence failures, escalation failures, exceptions anywhere in
the pipeline — the main `server.js` webhook handler and the `part_002`
handler each produce exactly one synchronous reply payload. -/
theorem webhook_exactly_one_reply :
    (∀ (req : Req) (w : WorldM), (mainHandler req w).replies.length = 1) ∧
    (∀ (req : Req) (w : WorldP2), (p2Handler req w).replies.length = 1) := by
  constructor
  · intro req w
    obtain ⟨b, f⟩ := req
    cases f with
    | none => rfl
    | some v =>
      cases v with
      | jstr s =>
        simp only [mainHandler]
        split
        · rfl
        · simp only [mainResolve]
          split
          · rfl
          · split
            · simp [mainResolved, mkOut]
            · rfl
      | jbool b' => rfl
      | jnum n => rfl
      | jnull => rfl
      | jundef => rfl
      | jother t r => rfl
  · intro req w
    obtain ⟨b, f⟩ := req
    cases f with
    | none => rfl
    | some v =>
      cases v with
      | jstr s =>
        simp only [p2Handler]
        split
        · rfl
        · split
          · rfl
          · split
            · rfl
            · split <;> rfl
      | jbool b' => rfl
      | jnum n => rfl
      | jnull => rfl
      | jundef => rfl
      | jother t r => rfl

/-- Claim C6: on the fallback path, the Spanish payment question with
monthly_rent = 15000 and rent_due_day = 5 yields category PAGO,
needsAttention = false, and a reply containing both "15000" and "5" — both
in the main `server.js` handler (end to end, generative call failed) and in
the `part_001` fallback classifier. -/
theorem fallback_payment_scenario :
    (let out := mainHandler
        ⟨some (.jstr "¿Cuándo se paga la renta?"),
         some (.jstr "whatsapp:+5215512345678")⟩
        ⟨[demoTenant], none, none, false, false⟩
     let g := mainFallback "¿Cuándo se paga la renta?" demoTenant 0
     g.category = .jstr "PAGO" ∧ g.needsAttention = .jbool false ∧
       jsIncludes (renderJ g.reply) "15000" = true ∧
       jsIncludes (renderJ g.reply) "5" = true ∧
       out.replies = [g.reply] ∧
       out.inserts.map (fun r => r.category) = [.jstr "PAGO"] ∧
       out.inserts.map (fun r => r.needs_landlord_attention) = [.jbool false]) ∧
    (let g1 := p1Fallback "¿Cuándo se paga la renta?" demoTenant
     g1.category = .jstr "PAGO" ∧ g1.needsAttention = .jbool false ∧
       jsIncludes (renderJ g1.reply) "15000" = true ∧
       jsIncludes (renderJ g1.reply) "5" = true) := by
  decide

/-- `v === true` holds exactly for the boolean `true`. -/
theorem isTrueJ_eq_true_iff (v : JVal) : isTrueJ v = true ↔ v = .jbool true := by
  cases v with
  | jbool b => cases b <;> simp [isTrueJ]
  | jnum n => simp [isTrueJ]
  | jstr s => simp [isTrueJ]
  | jnull => simp [isTrueJ]
  | jundef => simp [isTrueJ]
  | jother t r => simp [isTrueJ]

/-- Claim C8 counterexample: the main `server.js` handler assigns
`needsAttention = parsed.needsAttention` without coercion, so when the parsed
JSON carries the string "yes" for that field, the result record stores the
string "yes", which is neither `true` nor `false`. -/
theorem needsAttention_uncoerced_cex :
    (mainHandler
        ⟨some (.jstr "hola"), some (.jstr "whatsapp:+5215512345678")⟩
        ⟨[demoTenant], none,
         some ⟨.jstr "Entendido", .jstr "CONSULTA", .jstr "yes"⟩,
         false, false⟩).inserts.map
      (fun r => r.needs_landlord_attention) = [JVal.jstr "yes"] ∧
    JVal.jstr "yes" ≠ JVal.jbool true ∧ JVal.jstr "yes" ≠ JVal.jbool false := by
  decide

/-- Claim C8 (amended): on the primary path of `part_000`'s
`generateAIResponse`, the parsed `needsAttention` is coerced with `=== true`,
so the result's flag is the boolean saying whether the parsed field was
exactly `true`, is `true` only for a parsed boolean `true`, and is always a
strict boolean.  (The main `server.js` variant performs no such coercion.) -/
theorem p0_generate_coerces_needsAttention (m : String)
    (property : Option Property) (ai : Option ParsedAI) (parsed : ParsedAI)
    (h : ai = some parsed) :
    (p0Generate m property ai).needsAttention =
      .jbool (isTrueJ parsed.pneedsAttention) ∧
    ((p0Generate m property ai).needsAttention = .jbool true ↔
      parsed.pneedsAttention = .jbool true) ∧
    ∃ b : Bool, (p0Generate m property ai).needsAttention = .jbool b := by
  subst h
  refine ⟨rfl, ?_, ⟨_, rfl⟩⟩
  simpa [p0Generate] using isTrueJ_eq_true_iff parsed.pneedsAttention

/-- Witness for the amended C8 theorem at a concrete non-boolean parse. -/
theorem p0_generate_coerces_needsAttention_witness :
    (p0Generate "hola" none
        (some ⟨.jstr "ok", .jstr "PAGO", .jstr "yes"⟩)).needsAttention =
      .jbool (isTrueJ (JVal.jstr "yes")) ∧
    ((p0Generate "hola" none
        (some ⟨.jstr "ok", .jstr "PAGO", .jstr "yes"⟩)).needsAttention =
        .jbool true ↔ JVal.jstr "yes" = .jbool true) ∧
    ∃ b : Bool, (p0Generate "hola" none
        (some ⟨.jstr "ok", .jstr "PAGO", .jstr "yes"⟩)).needsAttention =
      .jbool b :=
  p0_generate_coerces_needsAttention "hola" none
    (some ⟨.jstr "ok", .jstr "PAGO", .jstr "yes"⟩)
    ⟨.jstr "ok", .jstr "PAGO", .jstr "yes"⟩ rfl

/-- A successful token query returns a member row matching the filter. -/
theorem tokenQuery_eq_some (tbl : List ResetToken) (tok : String) (now : Nat)
    (r : ResetToken) (h : tokenQuery tbl tok now = some r) :
    r ∈ tbl ∧ r.token = tok ∧ r.used = false ∧ now ≤ r.expires_at := by
  rw [tokenQuery] at h
  split at h
  next x heq =>
    injection h with hxr
    rw [hxr] at heq
    have hm : r ∈ tbl.filter
        (fun x => x.token == tok && x.used == false &&
          decide (now ≤ x.expires_at)) := by
      rw [heq]; exact List.mem_singleton_self r
    have := List.mem_filter.mp hm
    refine ⟨this.1, ?_⟩
    have hp := this.2
    simp only [Bool.and_eq_true, beq_iff_eq, decide_eq_true_eq] at hp
    exact ⟨hp.1.1, hp.1.2, hp.2⟩
  next => exact Option.noConfusion h

/-- With at most one row per token string, a member row matching the filter
makes the token query succeed on exactly that row. -/
theorem tokenQuery_of_mem (tbl : List ResetToken) (tok : String) (now : Nat)
    (huniq : (tbl.filter (fun x => x.token == tok)).length ≤ 1)
    (r : ResetToken) (hr : r ∈ tbl) (ht : r.token = tok) (hu : r.used = false)
    (he : now ≤ r.expires_at) : tokenQuery tbl tok now = some r := by
  have hm : r ∈ tbl.filter
      (fun x => x.token == tok && x.used == false &&
        decide (now ≤ x.expires_at)) :=
    List.mem_filter.mpr ⟨hr, by simp [ht, hu, he]⟩
  have hsub : (tbl.filter
      (fun x => x.token == tok && x.used == false &&
        decide (now ≤ x.expires_at))).Sublist
      (tbl.filter (fun x => x.token == tok)) := by
    refine List.monotone_filter_right tbl ?_
    intro a ha
    simp only [Bool.and_eq_true] at ha
    exact ha.1.1
  have hle := hsub.length_le
  have hpos : 0 < (tbl.filter
      (fun x => x.token == tok && x.used == false &&
        decide (now ≤ x.expires_at))).length :=
    List.length_pos.mpr (List.ne_nil_of_mem hm)
  have hlen1 : (tbl.filter
      (fun x => x.token == tok && x.used == false &&
        decide (now ≤ x.expires_at))).length = 1 := by omega
  obtain ⟨a, ha⟩ := List.length_eq_one.mp hlen1
  have hra : r = a := by
    rw [ha] at hm
    simpa using hm
  rw [tokenQuery, ha, hra]

/-- After consumption, the token query for that token always fails. -/
theorem tokenQuery_consumed (tbl : List ResetToken) (tok : String)
    (now2 : Nat) : tokenQuery (consumeToken tbl tok) tok now2 = none := by
  have h : (consumeToken tbl tok).filter
      (fun x => x.token == tok && x.used == false &&
        decide (now2 ≤ x.expires_at)) = [] := by
    rw [List.filter_eq_nil_iff]
    intro x hx
    rw [consumeToken, List.mem_map] at hx
    obtain ⟨y, _, rfl⟩ := hx
    by_cases hy : y.token = tok
    · simp [hy]
    · simp [beq_iff_eq, hy]
  rw [tokenQuery, h]

/-- Claim C7 counterexample: at the instant `now = expires_at` the code's
`.gte('expires_at', now)` check accepts the token, although the claim's
"current time strictly before expires_at" would reject it. -/
theorem reset_token_boundary_cex :
    (resetPassword [⟨7, "tok", 100, false⟩] "tok" "secreta" "secreta" 100).1 =
      .success 7 ∧ ¬(100 < 100) := by
  decide

/-- Claim C7 (amended): with matching password fields of sufficient length
and at most one stored row per token string, a reset-password attempt is
accepted exactly when some stored row has this token, `used = false`, and
`now ≤ expires_at` (at-or-before expiry, the code's non-strict `gte` check);
and an accepted token is consumed, so presenting the same token a second
time — at any later time and with any passwords — is rejected. -/
theorem reset_token_accept_once (tbl : List ResetToken) (tok pw : String)
    (now : Nat)
    (huniq : (tbl.filter (fun x => x.token == tok)).length ≤ 1)
    (hlen : 6 ≤ pw.length) :
    (isSuccess (resetPassword tbl tok pw pw now).1 = true ↔
      ∃ r ∈ tbl, r.token = tok ∧ r.used = false ∧ now ≤ r.expires_at) ∧
    (∀ (pw2 c2 : String) (now2 : Nat),
      isSuccess (resetPassword tbl tok pw pw now).1 = true →
      isSuccess
        (resetPassword (resetPassword tbl tok pw pw now).2 tok pw2 c2
          now2).1 = false) := by
  have hnmis : ¬(pw ≠ pw) := by simp
  have hnlen : ¬(pw.length < 6) := by omega
  constructor
  · rw [resetPassword, if_neg hnmis, if_neg hnlen]
    constructor
    · intro hs
      cases hq : tokenQuery tbl tok now with
      | none => rw [hq] at hs; simp [isSuccess] at hs
      | some r =>
        obtain ⟨hr, ht, hu, he⟩ := tokenQuery_eq_some tbl tok now r hq
        exact ⟨r, hr, ht, hu, he⟩
    · rintro ⟨r, hr, ht, hu, he⟩
      rw [tokenQuery_of_mem tbl tok now huniq r hr ht hu he]
      rfl
  · intro pw2 c2 now2 hs
    rw [resetPassword, if_neg hnmis, if_neg hnlen] at hs
    cases hq : tokenQuery tbl tok now with
    | none => rw [hq] at hs; simp [isSuccess] at hs
    | some r =>
      have h2 : (resetPassword tbl tok pw pw now).2 = consumeToken tbl tok := by
        rw [resetPassword, if_neg hnmis, if_neg hnlen, hq]
      rw [h2, resetPassword]
      split
      · rfl
      · split
        · rfl
        · rw [tokenQuery_consumed]
          rfl

/-- Witness for the amended C7 theorem: a concrete single-token table where
the fresh token is accepted and its second presentation is rejected. -/
theorem reset_token_accept_once_witness :
    isSuccess (resetPassword [⟨7, "tok", 100, false⟩] "tok" "secreta"
        "secreta" 50).1 = true ∧
    isSuccess (resetPassword (resetPassword [⟨7, "tok", 100, false⟩] "tok"
        "secreta" "secreta" 50).2 "tok" "secreta" "secreta" 60).1 = false := by
  have h := reset_token_accept_once [⟨7, "tok", 100, false⟩] "tok" "secreta"
    50 (by decide) (by decide)
  have h1 : isSuccess (resetPassword [⟨7, "tok", 100, false⟩] "tok" "secreta"
      "secreta" 50).1 = true :=
    h.1.mpr ⟨⟨7, "tok", 100, false⟩, by decide, by decide, by decide, by decide⟩
  exact ⟨h1, h.2 "secreta" "secreta" 60 h1⟩

/-- Claim C3 counterexample: in `part_001`, a fallback-classified emergency
sets `needsAttention = true` in the stored result record, yet no escalation
send is attempted because the tenant's property has no landlord phone — so
"needsAttention == true iff an escalation send is attempted" fails. -/
theorem needsAttention_without_escalation_cex :
    (p1Handler
        ⟨some (.jstr "fuga de agua"), some (.jstr "whatsapp:+5215522222222")⟩
        ⟨[noLandlordTenant], none, false⟩).inserts.map
      (fun r => r.needs_landlord_attention) = [JVal.jbool true] ∧
    (p1Handler
        ⟨some (.jstr "fuga de agua"), some (.jstr "whatsapp:+5215522222222")⟩
        ⟨[noLandlordTenant], none, false⟩).sends = [] := by
  decide

/-- Claim C3 (amended): in `part_001`, for every resolved inbound message an
escalation send is attempted if and only if the result record's
`needsAttention` is truthy AND the tenant's property carries a truthy
landlord phone; and the stored record's flag is exactly the generated one. -/
theorem escalation_iff_needs_and_landlord (msg f : String) (db : List Tenant)
    (ai : Option ParsedAI) (eb : Bool) (t : Tenant)
    (hmsg : msg ≠ "")
    (hp : replaceFirst f "whatsapp:" "" ≠ "")
    (hres : findTenant3 db (replaceFirst f "whatsapp:" "") = some t) :
    ((p1Handler ⟨some (.jstr msg), some (.jstr f)⟩ ⟨db, ai, eb⟩).sends ≠ [] ↔
      truthyJ (p1Generate msg t ai).needsAttention = true ∧
        landlordPhoneTruthy t = true) ∧
    (p1Handler ⟨some (.jstr msg), some (.jstr f)⟩ ⟨db, ai, eb⟩).inserts.map
        (fun r => r.needs_landlord_attention) =
      [(p1Generate msg t ai).needsAttention] := by
  have hcond : ¬(truthyO (some (JVal.jstr msg)) = false ∨
      replaceFirst f "whatsapp:" "" = "") := by
    simp [truthyO, truthyJ, hmsg, hp]
  simp only [p1Handler, if_neg hcond, hres]
  rw [p1AfterGen]
  by_cases hc : truthyJ (p1Generate msg t ai).needsAttention &&
      landlordPhoneTruthy t
  · rw [if_pos hc]
    simp only [Bool.and_eq_true] at hc
    cases eb <;> simp [mkOut, hc]
  · rw [if_neg hc]
    simp only [Bool.and_eq_true] at hc
    simp [mkOut, hc]

/-- Witness for the amended C3 theorem at a concrete resolved run. -/
theorem escalation_iff_needs_and_landlord_witness :
    ((p1Handler
        ⟨some (.jstr "fuga de agua"), some (.jstr "whatsapp:+5215512345678")⟩
        ⟨[demoTenant], none, false⟩).sends ≠ [] ↔
      truthyJ (p1Generate "fuga de agua" demoTenant none).needsAttention =
          true ∧
        landlordPhoneTruthy demoTenant = true) ∧
    (p1Handler
        ⟨some (.jstr "fuga de agua"), some (.jstr "whatsapp:+5215512345678")⟩
        ⟨[demoTenant], none, false⟩).inserts.map
        (fun r => r.needs_landlord_attention) =
      [(p1Generate "fuga de agua" demoTenant none).needsAttention] :=
  escalation_iff_needs_and_landlord "fuga de agua" "whatsapp:+5215512345678"
    [demoTenant] none false demoTenant (by decide) (by decide) (by decide)

/-- Claim C4 counterexample: in `part_001` the escalation send is not guarded
by its own try/catch and precedes the reply, so when the send throws, the
tenant receives the generic 'Error.' reply instead of the generated reply —
the escalation failure changes the reply text. -/
theorem escalation_failure_changes_reply_cex :
    (p1Handler
        ⟨some (.jstr "fuga de agua"), some (.jstr "whatsapp:+5215512345678")⟩
        ⟨[demoTenant], none, true⟩).replies = [.jstr "Error."] ∧
    (p1Handler
        ⟨some (.jstr "fuga de agua"), some (.jstr "whatsapp:+5215512345678")⟩
        ⟨[demoTenant], none, false⟩).replies =
      [.jstr "Ok, ya le avisé! Te contacta en breve."] ∧
    (JVal.jstr "Error." : JVal) ≠
      .jstr "Ok, ya le avisé! Te contacta en breve." := by
  decide

/-- Claim C4 (amended): in `part_002`, whose `notifyLandlord` catches its own
send error, the whole observable outcome of the handler — in particular the
reply text — is independent of whether the escalation send fails. -/
theorem p2_escalation_failure_reply_unchanged (req : Req) (db : List Tenant)
    (ai : Option ParsedAI) (b1 b2 : Bool) :
    p2Handler req ⟨db, ai, b1⟩ = p2Handler req ⟨db, ai, b2⟩ := rfl

/-- The timer callback never inserts a row with direction "incoming". -/
theorem timerEffect_no_incoming (msg p : String) (tid : Nat) (g : GenResult)
    (sf : Bool) :
    (timerEffect msg p tid g sf).2.filter
      (fun r => r.direction == "incoming") = [] := by
  rw [timerEffect]
  split
  · rw [timerRun]
    split
    · rfl
    · split
      · rfl
      · rfl
  · rfl

/-- Claim C5: the main handler issues exactly one Message insert with
direction "incoming" — carrying the message body, assigned category,
generated reply and attention flag — for every resolved inbound message, and
issues no Message insert at all when validation fails (missing or falsy
`Body`/`From` on a string-form request) or when the sender is unknown. -/
theorem message_row_iff_resolved :
    (∀ (req : Req) (w : WorldM),
      strField req.bodyF = true → strField req.fromF = true →
      mainValidOf req = false → (mainHandler req w).inserts = []) ∧
    (∀ (msg f : String) (w : WorldM),
      msg ≠ "" → replaceFirst f "whatsapp:" "" ≠ "" →
      findTenant w.db (replaceFirst f "whatsapp:" "") = none →
      (mainHandler ⟨some (.jstr msg), some (.jstr f)⟩ w).inserts = []) ∧
    (∀ (msg f : String) (w : WorldM) (t : Tenant),
      msg ≠ "" → replaceFirst f "whatsapp:" "" ≠ "" →
      findTenant w.db (replaceFirst f "whatsapp:" "") = some t →
      (mainHandler ⟨some (.jstr msg), some (.jstr f)⟩ w).inserts.filter
          (fun r => r.direction == "incoming") =
        [⟨t.id, "incoming", .jstr msg,
          (mainGenerate msg t (recentOf w.history).length w.aiOutcome).category,
          (mainGenerate msg t (recentOf w.history).length w.aiOutcome).reply,
          (mainGenerate msg t (recentOf w.history).length
            w.aiOutcome).needsAttention⟩]) := by
  refine ⟨?_, ?_, ?_⟩
  · intro req w hb hf hval
    obtain ⟨b, f⟩ := req
    cases f with
    | none => rfl
    | some v =>
      cases v with
      | jstr s =>
        simp only [mainValidOf, extractPhone, Bool.and_eq_false_iff] at hval
        have hcond : truthyO b = false ∨ replaceFirst s "whatsapp:" "" = "" := by
          rcases hval with h | h
          · exact Or.inl h
          · right
            simpa using h
        simp only [mainHandler, if_pos hcond]
        rfl
      | jbool b' => simp [strField] at hf
      | jnum n => simp [strField] at hf
      | jnull => simp [strField] at hf
      | jundef => simp [strField] at hf
      | jother t r => simp [strField] at hf
  · intro msg f w hmsg hp hfind
    have hcond : ¬(truthyO (some (JVal.jstr msg)) = false ∨
        replaceFirst f "whatsapp:" "" = "") := by
      simp [truthyO, truthyJ, hmsg, hp]
    simp only [mainHandler, if_neg hcond, mainResolve, hfind]
    rfl
  · intro msg f w t hmsg hp hfind
    have hcond : ¬(truthyO (some (JVal.jstr msg)) = false ∨
        replaceFirst f "whatsapp:" "" = "") := by
      simp [truthyO, truthyJ, hmsg, hp]
    simp only [mainHandler, if_neg hcond, mainResolve, hfind]
    simp only [mainResolved, mkOut, List.filter_cons]
    rw [timerEffect_no_incoming]
    rfl

/-- Witness for C5 at concrete validation-failure, unknown-sender and
resolved runs. -/
theorem message_row_iff_resolved_witness :
    (mainHandler ⟨none, some (.jstr "whatsapp:+5215512345678")⟩
        ⟨[demoTenant], none, none, false, false⟩).inserts = [] ∧
    (mainHandler ⟨some (.jstr "hola"), some (.jstr "whatsapp:+5215500000000")⟩
        ⟨[demoTenant], none, none, false, false⟩).inserts = [] ∧
    (mainHandler ⟨some (.jstr "hola"), some (.jstr "whatsapp:+5215512345678")⟩
        ⟨[demoTenant], none, none, false, false⟩).inserts.filter
        (fun r => r.direction == "incoming") =
      [⟨demoTenant.id, "incoming", .jstr "hola",
        (mainGenerate "hola" demoTenant
          (recentOf (none : Option (List HistMsg))).length
          (none : Option ParsedAI)).category,
        (mainGenerate "hola" demoTenant
          (recentOf (none : Option (List HistMsg))).length
          (none : Option ParsedAI)).reply,
        (mainGenerate "hola" demoTenant
          (recentOf (none : Option (List HistMsg))).length
          (none : Option ParsedAI)).needsAttention⟩] :=
  ⟨message_row_iff_resolved.1 ⟨none, some (.jstr "whatsapp:+5215512345678")⟩
      ⟨[demoTenant], none, none, false, false⟩ (by decide) (by decide)
      (by decide),
   message_row_iff_resolved.2.1 "hola" "whatsapp:+5215500000000"
      ⟨[demoTenant], none, none, false, false⟩ (by decide) (by decide)
      (by decide),
   message_row_iff_resolved.2.2 "hola" "whatsapp:+5215512345678"
      ⟨[demoTenant], none, none, false, false⟩ demoTenant (by decide)
      (by decide) (by decide)⟩

/-- Claim C9: the fallback classifiers (main variant and `part_000`) and the
context assembler are pure functions of the message body and the
tenant/property/history context alone — two runs on equal inputs produce
equal category/needsAttention/reply triples and equal assembled contexts. -/
theorem fallback_and_context_deterministic (m1 m2 : String) (t1 t2 : Tenant)
    (n1 n2 : Nat) (h1 h2 : List HistMsg) (q1 q2 : Option Property)
    (hm : m1 = m2) (ht : t1 = t2) (hn : n1 = n2) (hh : h1 = h2)
    (hq : q1 = q2) :
    mainFallback m1 t1 n1 = mainFallback m2 t2 n2 ∧
    p0Fallback m1 q1 = p0Fallback m2 q2 ∧
    assembleContextEs t1 h1 = assembleContextEs t2 h2 := by
  subst hm; subst ht; subst hn; subst hh; subst hq
  exact ⟨rfl, rfl, rfl⟩

/-- Witness for C9 at a concrete repeated input. -/
theorem fallback_and_context_deterministic_witness :
    mainFallback "hola" demoTenant 0 = mainFallback "hola" demoTenant 0 ∧
    p0Fallback "hola" (some demoProperty) =
      p0Fallback "hola" (some demoProperty) ∧
    assembleContextEs demoTenant [] = assembleContextEs demoTenant [] :=
  fallback_and_context_deterministic "hola" "hola" demoTenant demoTenant 0 0
    [] [] (some demoProperty) (some demoProperty) rfl rfl rfl rfl rfl

/-- The Spanish fallback only ever assigns the Spanish category strings. -/
theorem fallbackEs_category_mem (lower : String) (t : Tenant) (fu : Bool)
    (n : Nat) :
    (fallbackEs lower t fu n).category = .jstr "PAGO" ∨
    (fallbackEs lower t fu n).category = .jstr "URGENTE" ∨
    (fallbackEs lower t fu n).category = .jstr "MANTENIMIENTO" ∨
    (fallbackEs lower t fu n).category = .jstr "CONSULTA" := by
  rw [fallbackEs]
  split_ifs <;> simp

/-- A Spanish fallback category never produces a follow-up message. -/
theorem timerFollowUp_spanishCat_empty (msg lower : String) (t : Tenant)
    (fu : Bool) (n : Nat) :
    timerFollowUp msg (fallbackEs lower t fu n).category = "" := by
  rcases fallbackEs_category_mem lower t fu n with h | h | h | h <;>
    rw [timerFollowUp, h] <;> rfl

/-- Claim C10: in the main `server.js` variant the delayed follow-up sends
(and inserts its outgoing row) only when the category is exactly the string
'URGENT' or 'MAINTENANCE'; and since the Spanish fallback assigns
'URGENTE'/'MANTENIMIENTO'/'PAGO'/'CONSULTA', every Spanish-classified
fallback message with a truthy needsAttention schedules the timer yet the
timer sends nothing and inserts no outgoing row. -/
theorem spanish_fallback_schedules_but_never_sends :
    (∀ (msg p : String) (tid : Nat) (cat : JVal) (sf : Bool),
      (timerRun msg p tid cat sf).1 ≠ [] →
      cat = .jstr "URGENT" ∨ cat = .jstr "MAINTENANCE") ∧
    (∀ (msg f : String) (w : WorldM) (t : Tenant),
      msg ≠ "" → replaceFirst f "whatsapp:" "" ≠ "" →
      findTenant w.db (replaceFirst f "whatsapp:" "") = some t →
      w.aiOutcome = none →
      isSpanishMsg (jsToLower msg) = true →
      truthyJ (mainFallback msg t
        (recentOf w.history).length).needsAttention = true →
      (mainHandler ⟨some (.jstr msg), some (.jstr f)⟩ w).timerScheduled =
          true ∧
      (mainHandler ⟨some (.jstr msg), some (.jstr f)⟩ w).sends = [] ∧
      (mainHandler ⟨some (.jstr msg), some (.jstr f)⟩ w).inserts.filter
        (fun r => r.direction == "outgoing") = []) := by
  constructor
  · intro msg p tid cat sf h
    rw [timerRun] at h
    by_cases hfu : timerFollowUp msg cat = ""
    · rw [if_pos hfu] at h
      simp at h
    · simp only [timerFollowUp] at hfu
      by_cases hc : (cat == JVal.jstr "URGENT" ||
          cat == JVal.jstr "MAINTENANCE") = true
      · simpa only [Bool.or_eq_true, beq_iff_eq] using hc
      · exact absurd (if_neg (by simpa using hc)) hfu
  · intro msg f w t hmsg hp hfind hai hsp hneed
    have hcond : ¬(truthyO (some (JVal.jstr msg)) = false ∨
        replaceFirst f "whatsapp:" "" = "") := by
      simp [truthyO, truthyJ, hmsg, hp]
    have hgen : mainGenerate msg t (recentOf w.history).length w.aiOutcome =
        mainFallback msg t (recentOf w.history).length := by
      rw [hai, mainGenerate]
    have hfb : mainFallback msg t (recentOf w.history).length =
        fallbackEs (jsToLower msg) t
          (decide (0 < (recentOf w.history).length) &&
            decide (msg.length < 30))
          (recentOf w.history).length := by
      simp only [mainFallback, if_pos hsp]
    have hfu : timerFollowUp msg
        (mainFallback msg t (recentOf w.history).length).category = "" := by
      rw [hfb]
      exact timerFollowUp_spanishCat_empty msg (jsToLower msg) t _ _
    simp only [mainHandler, if_neg hcond, mainResolve, hfind, mainResolved,
      hgen, mkOut]
    refine ⟨hneed, ?_, ?_⟩
    · simp only [timerEffect, hneed, if_pos, timerRun, hfu]
    · have heff : timerEffect msg (replaceFirst f "whatsapp:" "") t.id
          (mainFallback msg t (recentOf w.history).length)
          w.timerSendFails = ([], []) := by
        simp only [timerEffect, hneed, if_pos, timerRun, hfu]
      simp only [List.filter_cons, heff]
      rfl

/-- Witness for C10: a concrete English URGENT follow-up send, and a concrete
Spanish fallback emergency that schedules the timer but sends nothing. -/
theorem spanish_fallback_schedules_but_never_sends_witness :
    (JVal.jstr "URGENT" = .jstr "URGENT" ∨
      JVal.jstr "URGENT" = .jstr "MAINTENANCE") ∧
    ((mainHandler
        ⟨some (.jstr "hay una fuga de agua"),
         some (.jstr "whatsapp:+5215512345678")⟩
        ⟨[demoTenant], none, none, false, false⟩).timerScheduled = true ∧
     (mainHandler
        ⟨some (.jstr "hay una fuga de agua"),
         some (.jstr "whatsapp:+5215512345678")⟩
        ⟨[demoTenant], none, none, false, false⟩).sends = [] ∧
     (mainHandler
        ⟨some (.jstr "hay una fuga de agua"),
         some (.jstr "whatsapp:+5215512345678")⟩
        ⟨[demoTenant], none, none, false, false⟩).inserts.filter
       (fun r => r.direction == "outgoing") = []) :=
  ⟨spanish_fallback_schedules_but_never_sends.1 "water leak" "p" 1
      (.jstr "URGENT") false (by decide),
   spanish_fallback_schedules_but_never_sends.2 "hay una fuga de agua"
      "whatsapp:+5215512345678" ⟨[demoTenant], none, none, false, false⟩
      demoTenant (by decide) (by decide) (by decide) rfl (by decide)
      (by decide)⟩
